import Mathlib

/-!
Verification of the COSMAX email-classifier core (`src/email_classifier.py`).

The development shallowly embeds the classification-and-routing pipeline:
the tolerant response parser (`parse_gemini_response`), the staff
matcher/scorer (`find_matching_researchers`), the prompt builder
(`build_classification_prompt`), the model-fallback selector
(`configure_gemini`) and the orchestrator (`classify_email`).

Python values decoded from JSON are modelled by the inductive type `Json`;
Python exceptions that can escape the orchestrator are modelled with
`Except PyError`.  Machine-level resource limits (CPython recursion limits)
are outside the embedding: all modelled functions are total, with fuel used
for recursion over unstructured input.
-/

namespace Cosmax

/-- Result of Python's `json.loads`: `null`/`bool`/number/string/array/object,
plus the non-standard `NaN`/`Infinity` literals CPython's `json` accepts.
Numbers are decimal pairs: `num m e` denotes `m * 10 ^ e` (an `int` when the
source text has no fraction/exponent part, in which case `e = 0` as parsed). -/
inductive Json where
  | null : Json
  | bool (b : Bool) : Json
  | num (m : Int) (e : Int) : Json
  | nan : Json
  | inf (neg : Bool) : Json
  | str (s : String) : Json
  | arr (xs : List Json) : Json
  | obj (kvs : List (String × Json)) : Json

/-- Python truthiness (`if not parsed:`) of a decoded JSON value:
`None`, `False`, `0`, `0.0`, `""`, `[]`, `{}` are falsy. -/
def jsonFalsy : Json → Bool
  | Json.null => true
  | Json.bool b => !b
  | Json.num m _ => m = 0
  | Json.nan => false
  | Json.inf _ => false
  | Json.str s => s.isEmpty
  | Json.arr xs => xs.isEmpty
  | Json.obj kvs => kvs.isEmpty

/-- Whether a decoded value is a JSON-object mapping (a Python `dict`). -/
def Json.isObjMap : Json → Bool
  | Json.obj _ => true
  | _ => false

/-- The character `{` (written via its code point to keep string-literal
scanning of this file simple). -/
def lbraceChar : Char := Char.ofNat 123

/-- The character `}`. -/
def rbraceChar : Char := Char.ofNat 125

/-- The backtick character. -/
def btickChar : Char := Char.ofNat 96

/-- The Unicode replacement character, standing in for lone surrogates that
Python strings can hold but Lean `Char` cannot. -/
def replacementChar : Char := Char.ofNat 0xFFFD

/-- JSON inter-token whitespace (the only whitespace `json.loads` skips). -/
def jsonWSChar (c : Char) : Bool :=
  c = ' ' || c = '\t' || c = '\n' || c = '\r'

/-- Skip JSON whitespace. -/
def skipJWS (cs : List Char) : List Char := cs.dropWhile jsonWSChar

/-- Value of one hexadecimal digit. -/
def hexVal (c : Char) : Option Nat :=
  if c.isDigit then some (c.toNat - 48)
  else if 'a' ≤ c ∧ c ≤ 'f' then some (c.toNat - 87)
  else if 'A' ≤ c ∧ c ≤ 'F' then some (c.toNat - 55)
  else none

/-- Four hexadecimal digits, as in a `\uXXXX` escape. -/
def parseHex4 (cs : List Char) : Option (Nat × List Char) :=
  match cs with
  | a :: b :: c :: d :: rest =>
    match hexVal a, hexVal b, hexVal c, hexVal d with
    | some x, some y, some z, some w => some (((x * 16 + y) * 16 + z) * 16 + w, rest)
    | _, _, _, _ => none
  | _ => none

/-- Read a maximal run of decimal digits: value, digit count, and rest. -/
def parseDigits (cs : List Char) : Nat × Nat × List Char :=
  let ds := cs.takeWhile Char.isDigit
  (ds.foldl (fun a c => a * 10 + (c.toNat - 48)) 0, ds.length, cs.drop ds.length)

/-- Optional exponent part of a JSON number. -/
def parseExp (m : Int) (e0 : Int) (cs : List Char) : Option (Json × List Char) :=
  match cs with
  | [] => some (Json.num m e0, [])
  | c :: rest =>
    if c = 'e' ∨ c = 'E' then
      let sc : Int × List Char :=
        match rest with
        | [] => (1, rest)
        | d :: rest2 => if d = '+' then (1, rest2) else if d = '-' then (-1, rest2) else (1, rest)
      let (ev, ecnt, cs3) := parseDigits sc.2
      if ecnt = 0 then none else some (Json.num m (e0 + sc.1 * (ev : Int)), cs3)
    else some (Json.num m e0, cs)

/-- Optional fraction part (then exponent) of a JSON number. -/
def parseFrac (neg : Bool) (ival : Nat) (cs : List Char) : Option (Json × List Char) :=
  let sgn : Int := if neg then -1 else 1
  match cs with
  | [] => some (Json.num (sgn * (ival : Int)) 0, [])
  | c :: rest =>
    if c = '.' then
      let (fval, fcnt, cs2) := parseDigits rest
      if fcnt = 0 then none
      else parseExp (sgn * ((ival * 10 ^ fcnt + fval : Nat) : Int)) (-(fcnt : Int)) cs2
    else parseExp (sgn * (ival : Int)) 0 cs

/-- A JSON number: optional minus, strict integer part (no leading zeros),
optional fraction and exponent. -/
def parseNumber (cs : List Char) : Option (Json × List Char) :=
  let nc : Bool × List Char :=
    match cs with
    | [] => (false, cs)
    | c :: rest => if c = '-' then (true, rest) else (false, cs)
  match nc.2 with
  | [] => none
  | c :: _ =>
    if c.isDigit then
      let (ival, icnt, cs2) := parseDigits nc.2
      if c = '0' ∧ icnt ≠ 1 then none
      else parseFrac nc.1 ival cs2
    else none

/-- Body of a JSON string after the opening quote, with strict-mode escape
handling as in CPython's `json`: standard escapes, `\uXXXX` with surrogate
pairs (lone surrogates are replaced by `replacementChar`, as Lean `Char`
cannot hold them), raw control characters rejected. -/
def parseJStrAux : Nat → List Char → List Char → Option (String × List Char)
  | 0, _, _ => none
  | fuel + 1, acc, cs =>
    match cs with
    | [] => none
    | c :: rest =>
      if c = '\"' then some (String.mk acc.reverse, rest)
      else if c = '\\' then
        match rest with
        | [] => none
        | e :: rest2 =>
          if e = '\"' then parseJStrAux fuel ('\"' :: acc) rest2
          else if e = '\\' then parseJStrAux fuel ('\\' :: acc) rest2
          else if e = '/' then parseJStrAux fuel ('/' :: acc) rest2
          else if e = 'b' then parseJStrAux fuel ('\x08' :: acc) rest2
          else if e = 'f' then parseJStrAux fuel ('\x0c' :: acc) rest2
          else if e = 'n' then parseJStrAux fuel ('\n' :: acc) rest2
          else if e = 'r' then parseJStrAux fuel ('\r' :: acc) rest2
          else if e = 't' then parseJStrAux fuel ('\t' :: acc) rest2
          else if e = 'u' then
            match parseHex4 rest2 with
            | none => none
            | some (n1, rest3) =>
              if 0xD800 ≤ n1 ∧ n1 < 0xDC00 then
                match rest3 with
                | b1 :: b2 :: rest4 =>
                  if b1 = '\\' ∧ b2 = 'u' then
                    match parseHex4 rest4 with
                    | some (n2, rest5) =>
                      if 0xDC00 ≤ n2 ∧ n2 < 0xE000 then
                        parseJStrAux fuel
                          (Char.ofNat (0x10000 + (n1 - 0xD800) * 0x400 + (n2 - 0xDC00)) :: acc)
                          rest5
                      else parseJStrAux fuel (replacementChar :: acc) rest3
                    | none => parseJStrAux fuel (replacementChar :: acc) rest3
                  else parseJStrAux fuel (replacementChar :: acc) rest3
                | _ => parseJStrAux fuel (replacementChar :: acc) rest3
              else if 0xDC00 ≤ n1 ∧ n1 < 0xE000 then
                parseJStrAux fuel (replacementChar :: acc) rest3
              else parseJStrAux fuel (Char.ofNat n1 :: acc) rest3
          else none
      else if c.toNat < 0x20 then none
      else parseJStrAux fuel (c :: acc) rest

/-- Insert a key/value pair with Python `dict` semantics: a duplicate key
keeps its first position and takes the latest value. -/
def dictInsert (kvs : List (String × Json)) (k : String) (v : Json) : List (String × Json) :=
  if kvs.any (fun p => p.1 = k) then kvs.map (fun p => if p.1 = k then (k, v) else p)
  else kvs ++ [(k, v)]

mutual

/-- One JSON value starting at the head of the input (whitespace already
skipped by the caller), returning the value and the remaining input. -/
def parseVal : Nat → List Char → Option (Json × List Char)
  | 0, _ => none
  | fuel + 1, cs =>
    if ("true".toList).isPrefixOf cs then some (Json.bool true, cs.drop 4)
    else if ("false".toList).isPrefixOf cs then some (Json.bool false, cs.drop 5)
    else if ("null".toList).isPrefixOf cs then some (Json.null, cs.drop 4)
    else if ("NaN".toList).isPrefixOf cs then some (Json.nan, cs.drop 3)
    else if ("Infinity".toList).isPrefixOf cs then some (Json.inf false, cs.drop 8)
    else if ("-Infinity".toList).isPrefixOf cs then some (Json.inf true, cs.drop 9)
    else
      match cs with
      | [] => none
      | c :: rest =>
        if c = '\"' then
          match parseJStrAux (rest.length + 1) [] rest with
          | some (s, rest2) => some (Json.str s, rest2)
          | none => none
        else if c = lbraceChar then
          let cs1 := skipJWS rest
          match cs1 with
          | [] => none
          | d :: rest1 => if d = rbraceChar then some (Json.obj [], rest1) else parseObjItems fuel cs1 []
        else if c = '[' then
          let cs1 := skipJWS rest
          match cs1 with
          | [] => none
          | d :: rest1 => if d = ']' then some (Json.arr [], rest1) else parseArrItems fuel cs1 []
        else if c = '-' ∨ c.isDigit then parseNumber cs
        else none

/-- Elements of a non-empty JSON array, positioned at an element start. -/
def parseArrItems : Nat → List Char → List Json → Option (Json × List Char)
  | 0, _, _ => none
  | fuel + 1, cs, acc =>
    match parseVal fuel cs with
    | none => none
    | some (v, cs2) =>
      match skipJWS cs2 with
      | [] => none
      | d :: rest3 =>
        if d = ',' then parseArrItems fuel (skipJWS rest3) (acc ++ [v])
        else if d = ']' then some (Json.arr (acc ++ [v]), rest3)
        else none

/-- Members of a non-empty JSON object, positioned at a key start. -/
def parseObjItems : Nat → List Char → List (String × Json) → Option (Json × List Char)
  | 0, _, _ => none
  | fuel + 1, cs, acc =>
    match cs with
    | [] => none
    | c :: rest =>
      if c = '\"' then
        match parseJStrAux (rest.length + 1) [] rest with
        | none => none
        | some (k, cs2) =>
          match skipJWS cs2 with
          | [] => none
          | d :: rest3 =>
            if d = ':' then
              match parseVal fuel (skipJWS rest3) with
              | none => none
              | some (v, cs4) =>
                match skipJWS cs4 with
                | [] => none
                | e :: rest5 =>
                  if e = ',' then parseObjItems fuel (skipJWS rest5) (dictInsert acc k v)
                  else if e = rbraceChar then some (Json.obj (dictInsert acc k v), rest5)
                  else none
            else none
      else none

end

/-- Model of Python `json.loads` on a character list: decode one value with
optional surrounding whitespace; anything else is a `JSONDecodeError`,
modelled as `none`.  The fuel bound is generous: parsing consumes input at
every recursive step. -/
def loadsList (cs : List Char) : Option Json :=
  let cs1 := skipJWS cs
  match parseVal (4 * cs1.length + 16) cs1 with
  | some (v, rest) => if (skipJWS rest).isEmpty then some v else none
  | none => none

/-- Python `str.strip()` / regex whitespace class, restricted to the ASCII
whitespace characters (the inputs of interest contain no exotic Unicode
whitespace). -/
def pyWSChar (c : Char) : Bool :=
  c = ' ' || c = '\t' || c = '\n' || c = '\r' || c = '\x0b' || c = '\x0c'

/-- Python `text.strip()`. -/
def pyStrip (cs : List Char) : List Char :=
  ((cs.dropWhile pyWSChar).reverse.dropWhile pyWSChar).reverse

/-- Split the input at the first closing triple-backtick fence: the lazily
captured content before it, and the input after it.  This is the non-greedy
tail of the fenced-block regex in `parse_gemini_response`. -/
def closeSplit : List Char → Option (List Char × List Char)
  | a :: b :: c :: rest =>
    if a = btickChar ∧ b = btickChar ∧ c = btickChar then some ([], rest)
    else
      match closeSplit (b :: c :: rest) with
      | some (cap, r) => some (a :: cap, r)
      | none => none
  | _ => none

/-- Part of a whitespace run strictly after its last newline, or `none` when
the run holds no newline.  This realises the backtracking greedy choice the
regex engine makes for the whitespace-then-newline part of the fence
pattern. -/
def lastNlSplit (run : List Char) : Option (List Char) :=
  let r := run.reverse.takeWhile (fun c => c ≠ '\n')
  if r.length = run.length then none else some r.reverse

/-- Try to match one fenced code block starting exactly at the head of the
input, per the regex in `parse_gemini_response`: three backticks, optional
literal tag for JSON, whitespace ending in a newline, then a lazily matched
capture up to the next three backticks.  Returns the capture and the input
after the match. -/
def fenceAt (cs : List Char) : Option (List Char × List Char) :=
  match cs with
  | a :: b :: c :: rest =>
    if a = btickChar ∧ b = btickChar ∧ c = btickChar then
      let afterTag := if ("json".toList).isPrefixOf rest then rest.drop 4 else rest
      let run := afterTag.takeWhile pyWSChar
      match lastNlSplit run with
      | none => none
      | some afterNl => closeSplit (afterNl ++ afterTag.drop run.length)
    else none
  | _ => none

/-- Model of `re.findall` for the fenced-block pattern: scan positions left
to right, collecting non-overlapping matches and resuming after each match
end. -/
def scanBlocks : Nat → List Char → List (List Char)
  | 0, _ => []
  | fuel + 1, cs =>
    match fenceAt cs with
    | some (cap, rest) => cap :: scanBlocks fuel rest
    | none =>
      match cs with
      | [] => []
      | _ :: cs2 => scanBlocks fuel cs2

/-- All fenced code-block captures in the text, in order of occurrence. -/
def findCodeBlocks (cs : List Char) : List (List Char) :=
  scanBlocks (cs.length + 1) cs

/-- The loop over `reversed(code_blocks)` in `parse_gemini_response`:
strip each block and return the first one that decodes. -/
def tryBlocks : List (List Char) → Option Json
  | [] => none
  | b :: bs =>
    match loadsList (pyStrip b) with
    | some v => some v
    | none => tryBlocks bs

/-- The substring from the first open brace to the last close brace
inclusive, or `none` when the slice guard of the source fails. -/
def braceSlice (cs : List Char) : Option (List Char) :=
  match cs.findIdx? (fun c => c = lbraceChar) with
  | none => none
  | some start =>
    match cs.reverse.findIdx? (fun c => c = rbraceChar) with
    | none => none
    | some ridx =>
      let stop := cs.length - ridx
      if start < stop then some ((cs.drop start).take (stop - start)) else none

/-- The tolerant response parser `parse_gemini_response`: strip the text,
try fenced code blocks last-to-first, then the whole text, then the
first-to-last brace slice; return an empty mapping when nothing decodes. -/
def parse_gemini_response (s : String) : Json :=
  let text := pyStrip s.toList
  let code_blocks := findCodeBlocks text
  match (if code_blocks.isEmpty then none else tryBlocks code_blocks.reverse) with
  | some v => v
  | none =>
    match loadsList text with
    | some v => v
    | none =>
      match braceSlice text with
      | some sub =>
        match loadsList sub with
        | some v => v
        | none => Json.obj []
      | none => Json.obj []

/-- First successful attempt in a list of decode attempts. -/
def firstSome : List (Option Json) → Option Json
  | [] => none
  | some v :: _ => some v
  | none :: rest => firstSome rest

/-- The ordered decode attempts of `parse_gemini_response` on a given text:
each fenced block from last to first, then the whole stripped text, then the
brace slice. -/
def parseAttempts (s : String) : List (Option Json) :=
  let text := pyStrip s.toList
  ((findCodeBlocks text).reverse.map (fun b => loadsList (pyStrip b)))
    ++ [loadsList text] ++ [(braceSlice text).bind loadsList]

/-- One record of the researcher directory (`researcher_db.json` values).
The directory is produced by the external ETL step; per the StaffRecord data
model its fields are strings (and a boolean verification flag).  A field
whose key is absent from the JSON record is `none`; the source reads all
fields except `name` through `dict.get` with a default. -/
structure ResearcherInfo where
  name : String
  department : Option String := none
  lab : Option String := none
  team : Option String := none
  position : Option String := none
  email : Option String := none
  email_verified : Option Bool := none
deriving Repr, DecidableEq

/-- One entry of the candidate list built by `find_matching_researchers`:
exactly the keys of the dict literal in the source. -/
structure Candidate where
  code : String
  name : String
  department : String
  lab : String
  team : String
  position : String
  email : String
  email_verified : Bool
  match_score : Nat
deriving Repr, DecidableEq

/-- Python substring containment `pat in s` on character lists: some suffix
of `s` starts with `pat`. -/
def containsSub (pat : List Char) : List Char → Bool
  | [] => pat.isEmpty
  | c :: rest => pat.isPrefixOf (c :: rest) || containsSub pat rest

/-- One scoring signal of `find_matching_researchers`: Python
`guess and rfield and guess in rfield` — both strings non-empty and the
guess contained in the record field (containment in that direction only). -/
def sigS (guess rfield : String) : Bool :=
  !guess.isEmpty && !rfield.isEmpty && containsSub guess.toList rfield.toList

/-- The additive 3/2/1 match score over the three record fields. -/
def scoreFields (department lab team rd rl rt : String) : Nat :=
  (if sigS department rd then 3 else 0)
    + (if sigS lab rl then 2 else 0)
    + (if sigS team rt then 1 else 0)

/-- The match score of a directory record, reading each field with the
source's `info.get(..., "")` default. -/
def scoreS (department lab team : String) (info : ResearcherInfo) : Nat :=
  scoreFields department lab team
    (info.department.getD "") (info.lab.getD "") (info.team.getD "")

/-- The candidate dict appended by `find_matching_researchers` for a record
with a positive score, with the source's per-field `get` defaults. -/
def mkCandidate (code : String) (info : ResearcherInfo) (score : Nat) : Candidate :=
  { code := code
    name := info.name
    department := info.department.getD ""
    lab := info.lab.getD ""
    team := info.team.getD ""
    position := info.position.getD ""
    email := info.email.getD ""
    email_verified := info.email_verified.getD false
    match_score := score }

/-- The candidate list of `find_matching_researchers` before sorting:
records in directory order, zero scorers dropped. -/
def candidatesS (department lab team : String) :
    List (String × ResearcherInfo) → List Candidate
  | [] => []
  | (code, info) :: rest =>
    let score := scoreS department lab team info
    if score > 0 then mkCandidate code info score :: candidatesS department lab team rest
    else candidatesS department lab team rest

/-- Insert into a descending-by-score list, after all entries whose score is
at least as large (the stable position). -/
def insertDesc (x : Candidate) : List Candidate → List Candidate
  | [] => [x]
  | y :: ys =>
    if y.match_score < x.match_score then x :: y :: ys
    else y :: insertDesc x ys

/-- Stable descending sort by `match_score`, modelling Python's stable
`list.sort(key=..., reverse=True)`. -/
def sortDesc (l : List Candidate) : List Candidate :=
  l.foldl (fun acc x => insertDesc x acc) []

/-- The Matcher/Scorer `find_matching_researchers`: score every record,
drop zero scorers, sort stably by descending score, return the top
`limit`. -/
def find_matching_researchers (researcher_db : List (String × ResearcherInfo))
    (department lab team : String) (limit : Nat := 5) : List Candidate :=
  (sortDesc (candidatesS department lab team researcher_db)).take limit

/-- Modelled from the claim's words for comparison with the source: the
scoring signal as C3 states it, with symmetric containment
(guess-in-record or record-in-guess). -/
def sigClaimed (guess rfield : String) : Bool :=
  !guess.isEmpty && !rfield.isEmpty
    && (containsSub guess.toList rfield.toList || containsSub rfield.toList guess.toList)

/-- Modelled from the claim's words: the additive score under symmetric
containment. -/
def scoreClaimed (department lab team rd rl rt : String) : Nat :=
  (if sigClaimed department rd then 3 else 0)
    + (if sigClaimed lab rl then 2 else 0)
    + (if sigClaimed team rt then 1 else 0)

/-- Python exceptions that the orchestrator does not catch. -/
inductive PyError where
  | attributeError : PyError
  | typeError : PyError
deriving Repr, DecidableEq

/-- One scoring signal when the guess is an arbitrary decoded JSON value,
as in the orchestrator's call: Python evaluates truthiness first, so a falsy
guess short-circuits; a truthy non-string guess raises `TypeError` at
`guess in rfield`. -/
def sigJ (guess : Json) (rfield : String) : Except PyError Bool :=
  if jsonFalsy guess then Except.ok false
  else if rfield.isEmpty then Except.ok false
  else
    match guess with
    | Json.str s => Except.ok (containsSub s.toList rfield.toList)
    | _ => Except.error PyError.typeError

/-- The additive score with JSON-valued guesses, signals evaluated in
source order. -/
def scoreJ (department lab team : Json) (info : ResearcherInfo) : Except PyError Nat :=
  match sigJ department (info.department.getD "") with
  | Except.error err => Except.error err
  | Except.ok b1 =>
    match sigJ lab (info.lab.getD "") with
    | Except.error err => Except.error err
    | Except.ok b2 =>
      match sigJ team (info.team.getD "") with
      | Except.error err => Except.error err
      | Except.ok b3 =>
        Except.ok ((if b1 then 3 else 0) + (if b2 then 2 else 0) + (if b3 then 1 else 0))

/-- The candidate list with JSON-valued guesses. -/
def candidatesJ (department lab team : Json) :
    List (String × ResearcherInfo) → Except PyError (List Candidate)
  | [] => Except.ok []
  | (code, info) :: rest =>
    match scoreJ department lab team info with
    | Except.error err => Except.error err
    | Except.ok score =>
      match candidatesJ department lab team rest with
      | Except.error err => Except.error err
      | Except.ok tailC =>
        Except.ok (if score > 0 then mkCandidate code info score :: tailC else tailC)

/-- `find_matching_researchers` as invoked by the orchestrator, where the
guesses are whatever JSON values the backend supplied. -/
def find_matching_researchersJ (researcher_db : List (String × ResearcherInfo))
    (department lab team : Json) (limit : Nat := 5) : Except PyError (List Candidate) :=
  match candidatesJ department lab team researcher_db with
  | Except.error err => Except.error err
  | Except.ok cs => Except.ok ((sortDesc cs).take limit)

/-- The email to classify. -/
structure EmailInput where
  subject : String
  body : String
  sender : String := ""
  date : String := ""
deriving Repr, DecidableEq

/-- The classification result accumulator.  The Python dataclass annotates
`str`/`list` types but never enforces them; the orchestrator stores raw
decoded JSON values into the fields, so the fields are modelled as `Json`
(with the dataclass defaults).  `recommended_researchers` only ever holds
the matcher's candidate list, and `raw_response` the backend reply text. -/
structure ClassificationResult where
  category : Json := Json.str ""
  category_description : Json := Json.str ""
  urgency : Json := Json.str ""
  urgency_reason : Json := Json.str ""
  summary : Json := Json.str ""
  key_points : Json := Json.arr []
  recommended_department : Json := Json.str ""
  recommended_lab : Json := Json.str ""
  recommended_team : Json := Json.str ""
  recommended_researchers : List Candidate := []
  suggested_actions : Json := Json.arr []
  raw_response : String := ""

/-- The fixed category taxonomy, in definition order. -/
def CATEGORIES : List (String × String) :=
  [("원료_문의", "원료 관련 문의, 원료 스펙, 원료 추천, 원료 변경"),
   ("처방_요청", "신제품 처방 개발, 처방 변경, 처방 최적화 요청"),
   ("품질_이슈", "제품 품질 문제, 클레임, 불량, 안정성 이슈"),
   ("일정_조율", "개발 일정, 납기, 미팅 일정, 샘플 일정"),
   ("규제_인허가", "인허가, 규제, 성분 규제, 수출 규정, INCI"),
   ("샘플_요청", "샘플 제작, 샘플 발송, 시제품 요청"),
   ("기술_검토", "기술 검토, 특허, 기술 자문, 공정 문의"),
   ("견적_계약", "견적서, 단가, 계약, MOQ, 거래 조건"),
   ("기타", "위 카테고리에 해당하지 않는 일반 문의")]

/-- The fixed urgency levels, in definition order. -/
def URGENCY_LEVELS : List (String × String) :=
  [("긴급", "즉시 대응 필요 (품질 사고, 라인 중단, 클레임 등)"),
   ("높음", "당일 또는 익일 대응 필요 (납기 임박, 고객 긴급 요청)"),
   ("보통", "일반적인 업무 처리 (3-5일 내 대응)"),
   ("낮음", "참고/정보 공유 성격 (일주일 이내 대응)")]

/-- Render taxonomy entries as indented `- key: description` lines. -/
def taxonomyLines (kvs : List (String × String)) : String :=
  String.intercalate "\n" (kvs.map (fun p => "  - " ++ p.1 ++ ": " ++ p.2))

/-- The JSON output-schema example embedded in the prompt (brace characters
written with code-point escapes). -/
def promptSchemaExample : String :=
  "\x7b\n  \"category\": \"카테고리명 (위 목록에서 선택)\",\n  \"category_description\": \"해당 카테고리로 분류한 이유 (1문장)\",\n  \"urgency\": \"긴급/높음/보통/낮음\",\n  \"urgency_reason\": \"긴급도 판단 근거 (1문장)\",\n  \"summary\": \"이메일 핵심 내용 요약 (2-3문장)\",\n  \"key_points\": [\"핵심 포인트1\", \"핵심 포인트2\"],\n  \"recommended_department\": \"추천 담당 연구소\",\n  \"recommended_lab\": \"추천 담당 랩\",\n  \"recommended_team\": \"추천 담당 팀 (알 수 없으면 빈 문자열)\",\n  \"suggested_actions\": [\"추천 액션1\", \"추천 액션2\", \"추천 액션3\"]\n\x7d"

/-- The Prompt Builder `build_classification_prompt`: a pure rendering of
the email, the taxonomy, the urgency levels, the directory summary and the
output schema, with the unknown-marker fallback for empty sender/date. -/
def build_classification_prompt (email : EmailInput) (dept_summary : String) : String :=
  let categories_text := taxonomyLines CATEGORIES
  let urgency_text := taxonomyLines URGENCY_LEVELS
  "당신은 코스맥스(Cosmax) 화장품 OEM 회사의 이메일 분류 전문가입니다.\n"
    ++ "코스맥스는 한국의 화장품 OEM/ODM 기업으로, 스킨케어, 메이크업, 선케어 등을 연구·개발·생산합니다.\n\n"
    ++ "아래 이메일을 분석하여 JSON 형식으로 분류 결과를 반환하세요.\n\n"
    ++ "=== 이메일 정보 ===\n"
    ++ "발신자: " ++ (if email.sender.isEmpty then "(미상)" else email.sender) ++ "\n"
    ++ "날짜: " ++ (if email.date.isEmpty then "(미상)" else email.date) ++ "\n"
    ++ "제목: " ++ email.subject ++ "\n\n"
    ++ "본문:\n" ++ email.body ++ "\n\n"
    ++ "=== 분류 카테고리 ===\n" ++ categories_text ++ "\n\n"
    ++ "=== 긴급도 레벨 ===\n" ++ urgency_text ++ "\n\n"
    ++ "=== 코스맥스 연구소 구조 ===\n" ++ dept_summary ++ "\n\n"
    ++ "=== 응답 형식 (반드시 JSON만 반환) ===\n" ++ promptSchemaExample ++ "\n\n"
    ++ "중요:\n"
    ++ "- 반드시 유효한 JSON만 반환하세요. 설명이나 마크다운 없이 JSON만 출력하세요.\n"
    ++ "- 코스맥스 연구소 구조를 참고하여 가장 적합한 부서를 추천하세요.\n"
    ++ "- 모든 응답은 한국어로 작성하세요.\n"

/-- The orchestrator `classify_email`.  The backend call is abstracted as a
function from the prompt to either a reply text or a raised exception's
text; the call is wrapped in the source's try/except, while the parse and
field-population steps are not guarded and may raise: `parsed.get` on a
truthy non-dict raises `AttributeError`, and a truthy non-string guess
inside the matcher raises `TypeError`. -/
def classify_email (backend : String → Except String String) (email : EmailInput)
    (researcher_db : List (String × ResearcherInfo)) (dept_summary : String) :
    Except PyError ClassificationResult :=
  let prompt := build_classification_prompt email dept_summary
  match backend prompt with
  | Except.error e => Except.ok { summary := Json.str ("분류 실패: " ++ e) }
  | Except.ok raw =>
    let parsed := parse_gemini_response raw
    if jsonFalsy parsed then
      Except.ok { raw_response := raw
                  summary := Json.str "JSON 파싱 실패 — 원본 응답을 확인하세요" }
    else
      match parsed with
      | Json.obj kvs =>
        let category := (kvs.lookup "category").getD (Json.str "기타")
        let category_description := (kvs.lookup "category_description").getD (Json.str "")
        let urgency := (kvs.lookup "urgency").getD (Json.str "보통")
        let urgency_reason := (kvs.lookup "urgency_reason").getD (Json.str "")
        let summary := (kvs.lookup "summary").getD (Json.str "")
        let key_points := (kvs.lookup "key_points").getD (Json.arr [])
        let recommended_department := (kvs.lookup "recommended_department").getD (Json.str "")
        let recommended_lab := (kvs.lookup "recommended_lab").getD (Json.str "")
        let recommended_team := (kvs.lookup "recommended_team").getD (Json.str "")
        let suggested_actions := (kvs.lookup "suggested_actions").getD (Json.arr [])
        match (if researcher_db.isEmpty then Except.ok []
               else find_matching_researchersJ researcher_db
                 recommended_department recommended_lab recommended_team 5) with
        | Except.error err => Except.error err
        | Except.ok recs =>
          Except.ok
            { category := category
              category_description := category_description
              urgency := urgency
              urgency_reason := urgency_reason
              summary := summary
              key_points := key_points
              recommended_department := recommended_department
              recommended_lab := recommended_lab
              recommended_team := recommended_team
              recommended_researchers := recs
              suggested_actions := suggested_actions
              raw_response := raw }
      | _ => Except.error PyError.attributeError

/-- Whether a probe outcome is a success. -/
def probeOk (r : Except String Unit) : Bool :=
  match r with
  | Except.ok _ => true
  | Except.error _ => false

/-- The per-candidate failure classification logged by `configure_gemini`:
a quota signal when the exception text contains a rate-limit status code,
otherwise the truncated exception text. -/
def probe_failure_reason (e : String) : String :=
  if containsSub ("429".toList) e.toList then "quota" else String.mk (e.toList.take 60)

/-- The Backend Selector loop of `configure_gemini`, with the live probe
abstracted as a function from a model name to its outcome.  Returns the
chosen model (`none` models the fatal `sys.exit(1)` when every candidate
fails) together with the trace of candidates actually probed, in order. -/
def configure_gemini (models : List String) (probe : String → Except String Unit) :
    Option String × List String :=
  match models with
  | [] => (none, [])
  | m :: rest =>
    match probe m with
    | Except.ok _ => (some m, [m])
    | Except.error _ =>
      let rt := configure_gemini rest probe
      (rt.1, m :: rt.2)

/-- A backend reply holding two fenced blocks where only the second block is
valid JSON. -/
def rawTwoBlocks : String :=
  "```json\n\x7b\"a\": 1\n```\n```json\n\x7b\"b\": 2\x7d\n```"

/-- A concrete email (the first demo email's header data). -/
def sampleEmail : EmailInput :=
  { subject := "[긴급] 선크림 SPF 테스트 결과 이상 — 출하 보류 요청"
    body := "표기 SPF 50+ 대비 실측값이 SPF 38로 확인되었습니다."
    sender := "soohyun.kim@oobrand.com"
    date := "2026-02-15" }

/-- A directory record whose department matches the guess of the spec's
orchestrator scenario. -/
def infoLabX : ResearcherInfo :=
  { name := "김연구", department := some "Lab X", lab := some "Formulation" }

/-- A one-record directory. -/
def dbLabX : List (String × ResearcherInfo) := [("A1", infoLabX)]

/-- A record whose department is a proper substring of a guess, used to
separate the two containment directions. -/
def infoRevGuess : ResearcherInfo :=
  { name := "n", department := some "X", lab := some "L" }

/-- A one-record directory around `infoRevGuess`. -/
def dbRevGuess : List (String × ResearcherInfo) := [("A", infoRevGuess)]

/-- The probe outcomes of the spec's Backend Selector scenario: the first
candidate fails with a quota-signaling error, the second succeeds. -/
def probeScenario : String → Except String Unit :=
  fun m => if m = "m2" then Except.ok () else Except.error "429 RESOURCE_EXHAUSTED"

/-- A backend reply that decodes to a non-empty JSON object with two keys. -/
def rawQuality : String :=
  "\x7b\"category\": \"품질_이슈\", \"urgency\": \"긴급\"\x7d"

/-- A backend reply that decodes to a non-empty JSON object whose
`recommended_department` value is a truthy non-string (a list). -/
def rawBadGuess : String :=
  "\x7b\"category\": \"x\", \"recommended_department\": [1]\x7d"

/-- The descending-score ordering of candidate entries. -/
def byScoreDesc (a b : Candidate) : Prop :=
  b.match_score ≤ a.match_score

theorem tryBlocks_eq_firstSome (bs : List (List Char)) :
    tryBlocks bs = firstSome (bs.map (fun b => loadsList (pyStrip b))) := by
  induction bs with
  | nil => rfl
  | cons b bs ih =>
    simp only [tryBlocks, List.map_cons]
    cases loadsList (pyStrip b) <;> simp [firstSome, ih]

theorem firstSome_append (xs ys : List (Option Json)) :
    firstSome (xs ++ ys) =
      match firstSome xs with
      | some v => some v
      | none => firstSome ys := by
  induction xs with
  | nil => rfl
  | cons x xs ih => cases x <;> simp [firstSome, ih]

theorem parse_tail_eq (text : List Char) :
    (match loadsList text with
      | some v => v
      | none =>
        match braceSlice text with
        | some sub =>
          match loadsList sub with
          | some v => v
          | none => Json.obj []
        | none => Json.obj []) =
      (firstSome ([loadsList text] ++ [(braceSlice text).bind loadsList])).getD (Json.obj []) := by
  cases loadsList text with
  | some v => rfl
  | none =>
    cases braceSlice text with
    | none => rfl
    | some sub => cases h : loadsList sub <;> simp [firstSome, h, Option.bind]

theorem parse_core_eq (blocks : List (List Char)) (text : List Char) :
    (match (if blocks.isEmpty then none else tryBlocks blocks.reverse) with
      | some v => v
      | none =>
        match loadsList text with
        | some v => v
        | none =>
          match braceSlice text with
          | some sub =>
            match loadsList sub with
            | some v => v
            | none => Json.obj []
          | none => Json.obj []) =
      (firstSome ((blocks.reverse.map (fun b => loadsList (pyStrip b)))
        ++ [loadsList text] ++ [(braceSlice text).bind loadsList])).getD (Json.obj []) := by
  rw [List.append_assoc, firstSome_append, ← tryBlocks_eq_firstSome]
  cases hb : blocks.isEmpty with
  | true =>
    have : blocks = [] := List.isEmpty_iff.mp hb
    subst this
    simpa using parse_tail_eq text
  | false =>
    cases tryBlocks blocks.reverse with
    | some v => rfl
    | none => simpa using parse_tail_eq text

/-- Claim C2 (amended part): for every input text, `parse_gemini_response`
is a total function that returns the value of the first successful decode
attempt — fenced blocks from last to first, then the whole stripped text,
then the brace slice — and the empty mapping when every attempt fails. -/
theorem parse_eq_attempts (s : String) :
    parse_gemini_response s = (firstSome (parseAttempts s)).getD (Json.obj []) := by
  unfold parse_gemini_response parseAttempts
  exact parse_core_eq _ _

theorem claim_C2_amended (s : String) :
    parse_gemini_response s = (firstSome (parseAttempts s)).getD (Json.obj []) :=
  parse_eq_attempts s

/-- Claim C2 (counterexample): on input text `3` a decode attempt succeeds
and `parse_gemini_response` returns the decoded number `3`, which is not a
JSON-object mapping — refuting the claim that a successful attempt always
yields a JSON-object mapping. -/
theorem claim_C2_counterexample :
    parse_gemini_response "3" = Json.num 3 0 ∧ (Json.num 3 0).isObjMap = false :=
  ⟨rfl, rfl⟩

/-- Claim C1 (failing input): for the backend reply text `[1]` — a reply
with some text — `classify_email` does not return a ClassificationResult at
all: the decoded value is a truthy non-dict, so the `parsed.get` field
projection raises `AttributeError`, which escapes to the caller. -/
theorem claim_C1_code_bug :
    classify_email (fun _ => Except.ok "[1]") sampleEmail [] "" =
      Except.error PyError.attributeError := rfl

/-- Claim C9: the Prompt Builder is deterministic — two invocations on
identical email and directory-summary inputs produce byte-identical prompt
text. -/
theorem claim_C9 (e1 e2 : EmailInput) (s1 s2 : String)
    (he : e1 = e2) (hs : s1 = s2) :
    build_classification_prompt e1 s1 = build_classification_prompt e2 s2 := by
  rw [he, hs]

/-- Witness for claim C9 at a concrete email and directory summary. -/
theorem claim_C9_witness :
    build_classification_prompt sampleEmail "(연구원 DB 없음)" =
      build_classification_prompt sampleEmail "(연구원 DB 없음)" :=
  claim_C9 sampleEmail sampleEmail "(연구원 DB 없음)" "(연구원 DB 없음)" rfl rfl

/-- Claim C8: `configure_gemini` probes the candidates in fixed order and
returns the first whose probe succeeds, probing exactly the candidates up
to and including it, each once; when every candidate fails it probes all of
them and reports no available model (the fatal exit).  In particular, in
the scenario [m1, m2, m3] with m1 failing on a quota-signaling error and m2
succeeding, it returns m2 and never probes m3. -/
theorem claim_C8 (models : List String) (probe : String → Except String Unit) :
    configure_gemini models probe =
      (models.find? (fun m => probeOk (probe m)),
        models.take (models.findIdx (fun m => probeOk (probe m)) + 1))
    ∧ configure_gemini ["m1", "m2", "m3"] probeScenario = (some "m2", ["m1", "m2"])
    ∧ probe_failure_reason "429 RESOURCE_EXHAUSTED" = "quota" := by
  refine ⟨?_, rfl, rfl⟩
  induction models with
  | nil => rfl
  | cons m rest ih =>
    cases hp : probe m with
    | ok u =>
      simp [configure_gemini, hp, List.find?_cons, List.findIdx_cons, probeOk]
    | error e =>
      simp [configure_gemini, hp, List.find?_cons, List.findIdx_cons, probeOk, ih,
        List.take_succ_cons]

/-- Claim C7: whenever the parser recovers nothing from the backend reply
(an empty mapping), `classify_email` returns immediately with a result
whose summary is a fixed non-empty diagnostic string and whose category is
the empty string. -/
theorem claim_C7 (backend : String → Except String String) (email : EmailInput)
    (researcher_db : List (String × ResearcherInfo)) (dept_summary : String) (raw : String)
    (hb : backend (build_classification_prompt email dept_summary) = Except.ok raw)
    (hp : parse_gemini_response raw = Json.obj []) :
    ∃ r, classify_email backend email researcher_db dept_summary = Except.ok r
      ∧ r.summary = Json.str "JSON 파싱 실패 — 원본 응답을 확인하세요"
      ∧ "JSON 파싱 실패 — 원본 응답을 확인하세요" ≠ ""
      ∧ r.category = Json.str "" := by
  refine ⟨{ raw_response := raw
            summary := Json.str "JSON 파싱 실패 — 원본 응답을 확인하세요" },
    ?_, rfl, by decide, rfl⟩
  unfold classify_email
  simp [hb, hp, jsonFalsy]

/-- Witness for claim C7: garbage reply text decodes to nothing and yields
the diagnostic result. -/
theorem claim_C7_witness :
    ∃ r, classify_email (fun _ => Except.ok "hello") sampleEmail [] "" = Except.ok r
      ∧ r.summary = Json.str "JSON 파싱 실패 — 원본 응답을 확인하세요"
      ∧ "JSON 파싱 실패 — 원본 응답을 확인하세요" ≠ ""
      ∧ r.category = Json.str "" :=
  claim_C7 (fun _ => Except.ok "hello") sampleEmail [] "" "hello" rfl rfl

theorem mem_insertDesc {a x : Candidate} {l : List Candidate} :
    a ∈ insertDesc x l ↔ a = x ∨ a ∈ l := by
  induction l with
  | nil => simp [insertDesc]
  | cons y ys ih =>
    simp only [insertDesc]
    split
    · simp [List.mem_cons]
    · simp only [List.mem_cons, ih]
      tauto

theorem pairwise_insertDesc {x : Candidate} {l : List Candidate}
    (h : l.Pairwise byScoreDesc) : (insertDesc x l).Pairwise byScoreDesc := by
  induction l with
  | nil => simp [insertDesc, byScoreDesc]
  | cons y ys ih =>
    rw [List.pairwise_cons] at h
    obtain ⟨hy, hys⟩ := h
    simp only [insertDesc]
    split
    · rename_i hlt
      rw [List.pairwise_cons]
      refine ⟨?_, List.pairwise_cons.mpr ⟨hy, hys⟩⟩
      intro b hb
      rcases List.mem_cons.mp hb with rfl | hb
      · exact Nat.le_of_lt hlt
      · exact Nat.le_trans (hy b hb) (Nat.le_of_lt hlt)
    · rename_i hge
      rw [List.pairwise_cons]
      refine ⟨?_, ih hys⟩
      intro b hb
      rcases mem_insertDesc.mp hb with rfl | hb
      · exact Nat.le_of_not_lt hge
      · exact hy b hb

theorem pairwise_foldl_insertDesc (l : List Candidate) :
    ∀ acc : List Candidate, acc.Pairwise byScoreDesc →
      (List.foldl (fun acc x => insertDesc x acc) acc l).Pairwise byScoreDesc := by
  induction l with
  | nil => intro acc h; simpa using h
  | cons x xs ih => intro acc h; exact ih _ (pairwise_insertDesc h)

theorem pairwise_sortDesc (l : List Candidate) : (sortDesc l).Pairwise byScoreDesc :=
  pairwise_foldl_insertDesc l [] List.Pairwise.nil

theorem mem_foldl_insertDesc {a : Candidate} (l : List Candidate) :
    ∀ acc, a ∈ List.foldl (fun acc x => insertDesc x acc) acc l → a ∈ acc ∨ a ∈ l := by
  induction l with
  | nil => intro acc h; exact Or.inl h
  | cons x xs ih =>
    intro acc h
    rcases ih _ h with h2 | h2
    · rcases mem_insertDesc.mp h2 with rfl | h3
      · exact Or.inr (List.mem_cons_self _ _)
      · exact Or.inl h3
    · exact Or.inr (List.mem_cons_of_mem _ h2)

theorem mem_sortDesc {a : Candidate} {l : List Candidate} (h : a ∈ sortDesc l) : a ∈ l := by
  rcases mem_foldl_insertDesc l [] h with h2 | h2
  · cases h2
  · exact h2

theorem filter_insertDesc (s : Nat) (x : Candidate) (l : List Candidate)
    (h : l.Pairwise byScoreDesc) :
    (insertDesc x l).filter (fun e => e.match_score == s) =
      if x.match_score = s then
        l.filter (fun e => e.match_score == s) ++ [x]
      else l.filter (fun e => e.match_score == s) := by
  induction l with
  | nil =>
    by_cases hx : x.match_score = s <;> simp [insertDesc, List.filter_cons, beq_iff_eq, hx]
  | cons y ys ih =>
    rw [List.pairwise_cons] at h
    obtain ⟨hy, hys⟩ := h
    simp only [insertDesc]
    split
    · rename_i hlt
      by_cases hx : x.match_score = s
      · have hnone : (y :: ys).filter (fun e => e.match_score == s) = [] := by
          rw [List.filter_eq_nil_iff]
          intro b hb
          have hble : b.match_score ≤ y.match_score := by
            rcases List.mem_cons.mp hb with rfl | hb2
            · exact Nat.le_refl _
            · exact hy b hb2
          simp only [beq_iff_eq]
          omega
        simp [List.filter_cons, hx, hnone]
      · simp [List.filter_cons, hx]
    · rename_i hge
      by_cases hx : x.match_score = s <;>
        by_cases hyy : y.match_score = s <;>
          simp [List.filter_cons, hx, hyy, ih hys]

theorem filter_foldl_insertDesc (s : Nat) (l : List Candidate) :
    ∀ acc, acc.Pairwise byScoreDesc →
      (List.foldl (fun acc x => insertDesc x acc) acc l).filter (fun e => e.match_score == s) =
        acc.filter (fun e => e.match_score == s) ++ l.filter (fun e => e.match_score == s) := by
  induction l with
  | nil => intro acc h; simp
  | cons x xs ih =>
    intro acc h
    rw [List.foldl_cons, ih _ (pairwise_insertDesc h), filter_insertDesc s x acc h]
    by_cases hx : x.match_score = s <;> simp [hx, List.filter_cons]

theorem filter_sortDesc (s : Nat) (l : List Candidate) :
    (sortDesc l).filter (fun e => e.match_score == s) =
      l.filter (fun e => e.match_score == s) := by
  simpa using filter_foldl_insertDesc s l [] List.Pairwise.nil

theorem mem_candidatesS {e : Candidate} (department lab team : String)
    (db : List (String × ResearcherInfo)) (h : e ∈ candidatesS department lab team db) :
    ∃ code info, (code, info) ∈ db ∧ 0 < scoreS department lab team info
      ∧ e = mkCandidate code info (scoreS department lab team info) := by
  induction db with
  | nil => cases h
  | cons p rest ih =>
    obtain ⟨code, info⟩ := p
    simp only [candidatesS] at h
    split at h
    · rename_i hs
      rcases List.mem_cons.mp h with rfl | h2
      · exact ⟨code, info, List.mem_cons_self _ _, hs, rfl⟩
      · obtain ⟨c, i, hmem, hsc, he⟩ := ih h2
        exact ⟨c, i, List.mem_cons_of_mem _ hmem, hsc, he⟩
    · obtain ⟨c, i, hmem, hsc, he⟩ := ih h
      exact ⟨c, i, List.mem_cons_of_mem _ hmem, hsc, he⟩

theorem scoreS_le_six (department lab team : String) (info : ResearcherInfo) :
    scoreS department lab team info ≤ 6 := by
  unfold scoreS scoreFields
  split_ifs <;> omega

/-- Claim C3 (counterexample): with directory record department `X` and
guessed department `XY`, the record field is contained in the guess but not
conversely; under the claim's symmetric rule the record would score
3 + 2 = 5, but the code returns it with score 2 (only the lab signal
fires). -/
theorem claim_C3_counterexample :
    (find_matching_researchers dbRevGuess "XY" "L" "" 5).map (fun e => e.match_score) = [2]
    ∧ scoreClaimed "XY" "L" "" "X" "L" "" = 5
    ∧ (2 : Nat) ≠ 5 :=
  ⟨rfl, rfl, by decide⟩

/-- Claim C3 (amended): the scoring signals count containment of the guess
within the record field only (+3 department, +2 lab, +1 team, both strings
non-empty), and no record with total score 0 is returned: every returned
entry's `match_score` is the additive score recomputed from its own copied
fields, and is at least 1. -/
theorem claim_C3_amended (db : List (String × ResearcherInfo))
    (department lab team : String) (limit : Nat) (e : Candidate)
    (h : e ∈ find_matching_researchers db department lab team limit) :
    e.match_score = scoreFields department lab team e.department e.lab e.team
    ∧ 1 ≤ e.match_score := by
  unfold find_matching_researchers at h
  have h2 := mem_sortDesc (List.take_subset _ _ h)
  obtain ⟨c, i, hmem, hsc, rfl⟩ := mem_candidatesS _ _ _ _ h2
  exact ⟨rfl, hsc⟩

/-- Witness for claim C3 (amended): the spec's matcher scenario, a record
with department `Lab X` matched by the guess `Lab X`. -/
theorem claim_C3_witness :
    (mkCandidate "A1" infoLabX 3).match_score =
      scoreFields "Lab X" "" "" (mkCandidate "A1" infoLabX 3).department
        (mkCandidate "A1" infoLabX 3).lab (mkCandidate "A1" infoLabX 3).team
    ∧ 1 ≤ (mkCandidate "A1" infoLabX 3).match_score :=
  claim_C3_amended dbLabX "Lab X" "" "" 5 (mkCandidate "A1" infoLabX 3) (by
    rw [show find_matching_researchers dbLabX "Lab X" "" "" 5 =
      [mkCandidate "A1" infoLabX 3] from rfl]
    exact List.mem_singleton_self _)

/-- Claim C5: the matcher's result has length at most `limit`, is empty on
the empty directory, is sorted by non-increasing `match_score`, and breaks
ties by the directory's original iteration order: within every score class,
the returned entries form a prefix of the candidates in directory order. -/
theorem claim_C5 (db : List (String × ResearcherInfo))
    (department lab team : String) (limit : Nat) :
    (find_matching_researchers db department lab team limit).length ≤ limit
    ∧ find_matching_researchers [] department lab team limit = []
    ∧ (find_matching_researchers db department lab team limit).Pairwise byScoreDesc
    ∧ ∀ s : Nat,
        (find_matching_researchers db department lab team limit).filter
            (fun e => e.match_score == s)
          <+: (candidatesS department lab team db).filter (fun e => e.match_score == s) := by
  refine ⟨?_, ?_, ?_, ?_⟩
  · unfold find_matching_researchers
    exact List.length_take_le _ _
  · unfold find_matching_researchers
    simp [candidatesS, sortDesc]
  · unfold find_matching_researchers
    exact (pairwise_sortDesc _).sublist (List.take_sublist _ _)
  · intro s
    unfold find_matching_researchers
    rw [← filter_sortDesc s (candidatesS department lab team db)]
    exact (List.take_prefix _ _).filter _

/-- Claim C10: every returned entry has a `match_score` between 1 and 6,
and is built from a directory record by the candidate constructor — whose
fields are exactly code, name, department, lab, team, position, email,
email_verified and match_score, with position and email defaulting to the
empty string and email_verified to false when absent from the record. -/
theorem claim_C10 (db : List (String × ResearcherInfo))
    (department lab team : String) (limit : Nat) (e : Candidate)
    (h : e ∈ find_matching_researchers db department lab team limit) :
    1 ≤ e.match_score ∧ e.match_score ≤ 6
    ∧ ∃ code info, (code, info) ∈ db
      ∧ e = mkCandidate code info (scoreS department lab team info) := by
  unfold find_matching_researchers at h
  have h2 := mem_sortDesc (List.take_subset _ _ h)
  obtain ⟨c, i, hmem, hsc, rfl⟩ := mem_candidatesS _ _ _ _ h2
  exact ⟨hsc, scoreS_le_six department lab team i, c, i, hmem, rfl⟩

/-- Witness for claim C10 at the one-record directory. -/
theorem claim_C10_witness :
    1 ≤ (mkCandidate "A1" infoLabX 3).match_score
    ∧ (mkCandidate "A1" infoLabX 3).match_score ≤ 6
    ∧ ∃ code info, (code, info) ∈ dbLabX
      ∧ mkCandidate "A1" infoLabX 3 = mkCandidate code info (scoreS "Lab X" "" "" info) :=
  claim_C10 dbLabX "Lab X" "" "" 5 (mkCandidate "A1" infoLabX 3) (by
    rw [show find_matching_researchers dbLabX "Lab X" "" "" 5 =
      [mkCandidate "A1" infoLabX 3] from rfl]
    exact List.mem_singleton_self _)

theorem tryBlocks_of_first_success (rs : List (List Char)) :
    ∀ (i : Nat) (hi : i < rs.length) (v : Json),
      loadsList (pyStrip (rs.get ⟨i, hi⟩)) = some v →
      (∀ (j : Nat) (hj : j < rs.length), j < i → loadsList (pyStrip (rs.get ⟨j, hj⟩)) = none) →
      tryBlocks rs = some v := by
  induction rs with
  | nil => intro i hi; exact absurd hi (Nat.not_lt_zero i)
  | cons b bs ih =>
    intro i hi v h1 h2
    cases i with
    | zero =>
      have hb : loadsList (pyStrip b) = some v := h1
      simp [tryBlocks, hb]
    | succ i2 =>
      have hb : loadsList (pyStrip b) = none := h2 0 (Nat.succ_pos _) (Nat.succ_pos _)
      simp only [tryBlocks, hb]
      exact ih i2 (Nat.lt_of_succ_lt_succ hi) v h1
        (fun j hj hlt => h2 (j + 1) (Nat.succ_lt_succ hj) (Nat.succ_lt_succ hlt))

/-- Claim C4: when the text holds fenced blocks, `parse_gemini_response`
attempts them from the last occurrence toward the first and returns the
decoded content of the first block that decodes: if, in the reversed block
list, every block before position `i` fails to decode and block `i` decodes
to `v`, the parser returns `v`. -/
theorem claim_C4 (s : String) (rs : List (List Char)) (i : Nat) (v : Json)
    (hrs : (findCodeBlocks (pyStrip s.toList)).reverse = rs)
    (hi : i < rs.length)
    (hv : loadsList (pyStrip (rs.get ⟨i, hi⟩)) = some v)
    (hbefore : ∀ (j : Nat) (hj : j < rs.length), j < i →
      loadsList (pyStrip (rs.get ⟨j, hj⟩)) = none) :
    parse_gemini_response s = v := by
  have htry : tryBlocks ((findCodeBlocks (pyStrip s.toList)).reverse) = some v := by
    rw [hrs]
    exact tryBlocks_of_first_success rs i hi v hv hbefore
  have hfs : firstSome ((findCodeBlocks (pyStrip s.toList)).reverse.map
      (fun b => loadsList (pyStrip b))) = some v := by
    rw [← tryBlocks_eq_firstSome]
    exact htry
  rw [parse_eq_attempts]
  show (firstSome ((findCodeBlocks (pyStrip s.toList)).reverse.map
      (fun b => loadsList (pyStrip b))
    ++ [loadsList (pyStrip s.toList)]
    ++ [(braceSlice (pyStrip s.toList)).bind loadsList])).getD (Json.obj []) = v
  rw [List.append_assoc, firstSome_append, hfs]
  rfl

/-- Witness for claim C4: two fenced JSON blocks with only the second one
valid; the parser returns the second block's decoded content. -/
theorem claim_C4_witness :
    parse_gemini_response rawTwoBlocks = Json.obj [("b", Json.num 2 0)] :=
  claim_C4 rawTwoBlocks ((findCodeBlocks (pyStrip rawTwoBlocks.toList)).reverse) 0
    (Json.obj [("b", Json.num 2 0)]) rfl (by decide) rfl
    (fun j hj hlt => absurd hlt (Nat.not_lt_zero j))

theorem sigJ_str (g rf : String) : sigJ (Json.str g) rf = Except.ok (sigS g rf) := by
  by_cases hg : g.isEmpty <;> by_cases hrf : rf.isEmpty <;>
    simp [sigJ, sigS, jsonFalsy, hg, hrf]

theorem scoreJ_str (d l t : String) (info : ResearcherInfo) :
    scoreJ (Json.str d) (Json.str l) (Json.str t) info = Except.ok (scoreS d l t info) := by
  unfold scoreJ
  rw [sigJ_str, sigJ_str, sigJ_str]
  rfl

theorem candidatesJ_str (d l t : String) (db : List (String × ResearcherInfo)) :
    candidatesJ (Json.str d) (Json.str l) (Json.str t) db =
      Except.ok (candidatesS d l t db) := by
  induction db with
  | nil => rfl
  | cons p rest ih =>
    obtain ⟨code, info⟩ := p
    simp only [candidatesJ, candidatesS, scoreJ_str, ih]

theorem findJ_str (db : List (String × ResearcherInfo)) (d l t : String) (n : Nat) :
    find_matching_researchersJ db (Json.str d) (Json.str l) (Json.str t) n =
      Except.ok (find_matching_researchers db d l t n) := by
  unfold find_matching_researchersJ find_matching_researchers
  rw [candidatesJ_str]

/-- Claim C6 (amended): when the backend reply parses to a non-empty
mapping whose routing-guess values (recommended_department, recommended_lab
and recommended_team) are strings or absent, the orchestrator copies the
structured fields into the result with per-field defaults for missing keys
(category defaults to the catch-all label, urgency to the mid level, the
two sequence fields to empty lists), and the matcher step is skipped
entirely when the directory is empty.  The string condition on the guesses
cannot be dropped: see the counterexample, where a truthy non-string guess
makes the matcher raise an uncaught `TypeError`. -/
theorem claim_C6 (backend : String → Except String String) (email : EmailInput)
    (researcher_db : List (String × ResearcherInfo)) (dept_summary : String)
    (raw : String) (kvs : List (String × Json)) (d l t : String)
    (hb : backend (build_classification_prompt email dept_summary) = Except.ok raw)
    (hp : parse_gemini_response raw = Json.obj kvs)
    (hne : kvs ≠ [])
    (hd : (kvs.lookup "recommended_department").getD (Json.str "") = Json.str d)
    (hl : (kvs.lookup "recommended_lab").getD (Json.str "") = Json.str l)
    (ht : (kvs.lookup "recommended_team").getD (Json.str "") = Json.str t) :
    classify_email backend email researcher_db dept_summary = Except.ok
      { category := (kvs.lookup "category").getD (Json.str "기타")
        category_description := (kvs.lookup "category_description").getD (Json.str "")
        urgency := (kvs.lookup "urgency").getD (Json.str "보통")
        urgency_reason := (kvs.lookup "urgency_reason").getD (Json.str "")
        summary := (kvs.lookup "summary").getD (Json.str "")
        key_points := (kvs.lookup "key_points").getD (Json.arr [])
        recommended_department := Json.str d
        recommended_lab := Json.str l
        recommended_team := Json.str t
        recommended_researchers :=
          if researcher_db.isEmpty then []
          else find_matching_researchers researcher_db d l t 5
        suggested_actions := (kvs.lookup "suggested_actions").getD (Json.arr [])
        raw_response := raw } := by
  have hfalsy : jsonFalsy (Json.obj kvs) = false := by
    cases kvs with
    | nil => exact absurd rfl hne
    | cons a as => rfl
  unfold classify_email
  cases hdb : researcher_db.isEmpty with
  | true =>
    simp only [hb, hp, hfalsy, Bool.false_eq_true, if_false, hdb, if_true, hd, hl, ht]
  | false =>
    simp only [hb, hp, hfalsy, Bool.false_eq_true, if_false, hdb, hd, hl, ht, findJ_str]

/-- Witness for claim C6: a reply decoding to a two-key mapping, classified
against the one-record directory; absent keys take their defaults and the
matcher runs on the guess defaults. -/
theorem claim_C6_witness :
    classify_email (fun _ => Except.ok rawQuality) sampleEmail dbLabX "" = Except.ok
      { category := (([("category", Json.str "품질_이슈"), ("urgency", Json.str "긴급")]).lookup
          "category").getD (Json.str "기타")
        category_description := (([("category", Json.str "품질_이슈"),
          ("urgency", Json.str "긴급")]).lookup "category_description").getD (Json.str "")
        urgency := (([("category", Json.str "품질_이슈"), ("urgency", Json.str "긴급")]).lookup
          "urgency").getD (Json.str "보통")
        urgency_reason := (([("category", Json.str "품질_이슈"),
          ("urgency", Json.str "긴급")]).lookup "urgency_reason").getD (Json.str "")
        summary := (([("category", Json.str "품질_이슈"), ("urgency", Json.str "긴급")]).lookup
          "summary").getD (Json.str "")
        key_points := (([("category", Json.str "품질_이슈"), ("urgency", Json.str "긴급")]).lookup
          "key_points").getD (Json.arr [])
        recommended_department := Json.str ""
        recommended_lab := Json.str ""
        recommended_team := Json.str ""
        recommended_researchers :=
          if dbLabX.isEmpty then []
          else find_matching_researchers dbLabX "" "" "" 5
        suggested_actions := (([("category", Json.str "품질_이슈"),
          ("urgency", Json.str "긴급")]).lookup "suggested_actions").getD (Json.arr [])
        raw_response := rawQuality } :=
  claim_C6 (fun _ => Except.ok rawQuality) sampleEmail dbLabX "" rawQuality
    [("category", Json.str "품질_이슈"), ("urgency", Json.str "긴급")] "" "" ""
    rfl rfl (List.cons_ne_nil _ _) rfl rfl rfl

/-- Claim C6 (counterexample): a backend reply that parses to a non-empty
mapping whose `recommended_department` value is the truthy non-string `[1]`,
classified against a non-empty directory.  The claim as stated promises the
structured fields are copied into a returned result; instead the matcher's
`guess in record_field` containment test raises an uncaught `TypeError`
(Python requires a string as the left operand of `in`), so `classify_email`
returns no ClassificationResult at all. -/
theorem claim_C6_counterexample :
    parse_gemini_response rawBadGuess =
      Json.obj [("category", Json.str "x"), ("recommended_department", Json.arr [Json.num 1 0])]
    ∧ [("category", Json.str "x"), ("recommended_department", Json.arr [Json.num 1 0])]
        ≠ ([] : List (String × Json))
    ∧ classify_email (fun _ => Except.ok rawBadGuess) sampleEmail dbLabX "" =
        Except.error PyError.typeError :=
  ⟨rfl, List.cons_ne_nil _ _, rfl⟩

end Cosmax
